import Mathlib

/-!
Shallow embedding of the payment-confirmation and application-lifecycle core of
the career-backend repository: the Application / Message data model
(src/models/Application.js, src/models/Message.js), the Paystack gateway helpers
(chargeMpesa phone normalization, verifyWebhookSignature), the application
routes (create, admin refund, webhook handler, verify-payment), and the
reminder scheduler (checkAndSendReminders).

Mongo documents become Lean structures; the Mongo collections become lists
inside a `DB` record; `findById` / `findOne` become `List.find?`;
`findOneAndUpdate` / `save` become a by-id map over the list.  External calls
(the Paystack HTTP API, Cloudinary uploads, the email sender) are passed in as
explicit parameters holding the result the call would return, so every
operation is a pure function from inputs and a database to a response and a
database.
-/

/-- Application.status enum (src/models/Application.js). -/
inductive AppStatus
  | pending_payment
  | submitted
  | under_review
  | shortlisted
  | rejected
  | accepted
deriving DecidableEq, Repr

/-- Message.type enum (src/models/Message.js). -/
inductive MsgType
  | payment_reminder
  | completion_reminder
  | offer
  | status_update
deriving DecidableEq, Repr

/-- An Application document (src/models/Application.js).  Timestamps are
integer epoch milliseconds; money amounts are rationals in the major currency
unit (the code divides the gateway minor unit by 100). -/
structure App where
  id : String
  userId : String
  opportunityId : String
  resumeUrl : String
  recommendationLetterUrl : Option String
  coverLetter : Option String
  status : AppStatus
  paymentTransactionId : Option String
  amountPaid : Option ℚ
  refundedAt : Option Int
  refundTransferCode : Option String
  refundAmount : Option ℚ
  createdAt : Int
deriving DecidableEq, Repr

/-- The User fields the payment core reads and writes (src/models/User.js). -/
structure UserRec where
  id : String
  name : String
  email : String
  paystackAuthorizationCode : Option String
  paystackCardLast4 : Option String
  paystackCardType : Option String
deriving DecidableEq, Repr

/-- The Opportunity fields the payment core reads (src/models/Opportunity.js). -/
structure Opp where
  id : String
  title : String
  isActive : Bool
  oppType : String
  applicationFee : Option ℚ
deriving DecidableEq, Repr

/-- A Message document (src/models/Message.js). -/
structure Msg where
  userId : String
  applicationId : String
  opportunityId : String
  msgType : MsgType
  subject : String
  content : String
  read : Bool
  emailSent : Bool
  sentAt : Int
deriving DecidableEq, Repr

/-- The persistent store: the four Mongo collections the core touches. -/
structure DB where
  apps : List App
  users : List UserRec
  opps : List Opp
  messages : List Msg
deriving DecidableEq, Repr

/-- `application.save()` / `findByIdAndUpdate`: replace the document with id
`a'.id` by `a'`.  (Mongo `_id`s are unique, so the by-id map touches one doc.) -/
def saveApp (a' : App) (db : DB) : DB :=
  { db with apps := db.apps.map (fun a => if a.id = a'.id then a' else a) }

/-- `reference.startsWith('APP-')`. -/
def startsWithTag (s : String) : Bool :=
  "APP-".data.isPrefixOf s.data

/-- JS `reference.replace` of the anchored regex "caret APP dash" with the
empty string: drop a leading "APP-" if present. -/
def stripAppTag (s : String) : String :=
  if "APP-".data.isPrefixOf s.data then String.mk (s.data.drop 4) else s

/-- JS `s.replace` of the regex "dash, one or more digits, end anchor" with the
empty string.  That regex has a single candidate match: the maximal trailing
digit run together with the dash just before it (an earlier dash cannot start a
match because the digit run would have to cross this dash). -/
def stripTrailingDashDigits (s : String) : String :=
  let r := s.data.reverse
  let ds := r.takeWhile (fun c => c.isDigit)
  if 0 < ds.length ∧ (r.drop ds.length).head? = some '-' then
    String.mk ((r.drop (ds.length + 1)).reverse)
  else s

/-- Application id encoded in a payment reference `APP-<applicationId>-<epochMillis>`:
the two JS replace calls above composed, as in the webhook handler and the
verify-payment route. -/
def extractAppId (ref : String) : String :=
  stripTrailingDashDigits (stripAppTag ref)

example : extractAppId "APP-abc123-1700000" = "abc123" := by decide
example : extractAppId "APP-a1-99" = "a1" := by decide
example : extractAppId "APP-a1" = "a1" := by decide

/-! ## Gateway client (src/utils/paystack.js) -/

deriving instance DecidableEq for Except

/-- Hex value of one character, as in Node Buffer.from(s, "hex"). -/
def hexVal (c : Char) : Option Nat :=
  if '0' ≤ c ∧ c ≤ '9' then some (c.toNat - '0'.toNat)
  else if 'a' ≤ c ∧ c ≤ 'f' then some (c.toNat - 'a'.toNat + 10)
  else if 'A' ≤ c ∧ c ≤ 'F' then some (c.toNat - 'A'.toNat + 10)
  else none

/-- Decode hex character pairs into bytes, stopping at the first invalid or
incomplete pair, as Node Buffer.from(s, "hex") does. -/
def hexDecodeAux : List Char → List Nat
  | c1 :: c2 :: rest =>
    match hexVal c1, hexVal c2 with
    | some h, some l => (16 * h + l) :: hexDecodeAux rest
    | _, _ => []
  | _ => []

/-- Node Buffer.from(s, "hex") as a byte list. -/
def hexDecode (s : String) : List Nat :=
  hexDecodeAux s.data

/-- verifyWebhookSignature (src/utils/paystack.js): false if the secret is not
configured or the header is absent (JS truthiness, so an empty string also
counts as absent); otherwise HMAC-SHA512 the raw payload, hex-encode, compare
lengths, then timingSafeEqual the hex-decoded buffers (a decoded-length
mismatch throws and is caught, yielding false, so the comparison is exactly
byte-list equality).  The HMAC itself is an opaque parameter `hmacHex`. -/
def verifyWebhookSignature (hmacHex : String → String → String)
    (secret : Option String) (payload : String) (signature : Option String) : Bool :=
  match secret, signature with
  | some sec, some sig =>
    if sec = "" ∨ sig = "" then false
    else
      let hash := hmacHex sec payload
      if hash.length ≠ sig.length then false
      else decide (hexDecode hash = hexDecode sig)
  | _, _ => false

/-- JS `String(phone || '').replace` of the whitespace class with the empty
string (global). -/
def jsStripWhitespace (s : String) : String :=
  String.mk (s.data.filter (fun c => ¬ c.isWhitespace))

/-- JS `.replace` of the anchored regex "caret plus" with the empty string:
drop one leading plus sign. -/
def stripLeadingPlus (s : String) : String :=
  match s.data with
  | '+' :: rest => String.mk rest
  | _ => s

/-- Phone normalization of chargeMpesa / createTransferRecipient
(src/utils/paystack.js): strip whitespace and a leading plus; a leading "0"
becomes "254"; a number not starting with "254" gets "254" prepended. -/
def normalizeMpesaPhoneRaw (phone : String) : String :=
  let n := stripLeadingPlus (jsStripWhitespace phone)
  if n.data.head? = some '0' then "254" ++ String.mk (n.data.drop 1)
  else if "254".data.isPrefixOf n.data then n
  else "254" ++ n

/-- The phone actually placed in the charge request body: reject with
"Invalid phone number" when the normalized number is shorter than 12
characters, else prepend a plus. -/
def mpesaPhoneFormatted (phone : String) : Except String String :=
  let normalized := normalizeMpesaPhoneRaw phone
  if normalized.length < 12 then Except.error "Invalid phone number"
  else Except.ok ("+" ++ normalized)

/-- The `data` object of a Paystack charge response, fields the code reads. -/
structure MpesaChargeData where
  status : Option String
  reference : Option String
  display_text : Option String
  gateway_response : Option String
  message : Option String
deriving DecidableEq, Repr

/-- A Paystack charge HTTP response body: top-level boolean `status`,
`message`, and optional `data`. -/
structure MpesaGwResp where
  status : Bool
  message : Option String
  data : Option MpesaChargeData
deriving DecidableEq, Repr

/-- chargeMpesa return value. -/
structure MpesaResult where
  reference : String
  status : String
  display_text : String
deriving DecidableEq, Repr

/-- JS `opt || dflt` on an optional string (empty string is falsy). -/
def orElseStr (o : Option String) (dflt : String) : String :=
  match o with
  | some s => if s = "" then dflt else s
  | none => none.getD dflt

/-- chargeMpesa (src/utils/paystack.js): throw if the secret key is unset,
normalize and length-check the phone before anything else, then interpret the
gateway response `gw` (the response to the POST of the built body): a
pay_offline/pending data status with a truthy top-level status is a success;
a falsy top-level status throws (with a clearer message when Paystack said
"Charge attempted"); a "failed" data status throws the gateway reason;
otherwise return the data with fallbacks. -/
def chargeMpesa (secretKey : Option String) (reference : String) (phone : String)
    (gw : MpesaGwResp) : Except String MpesaResult :=
  match secretKey with
  | none => Except.error "PAYSTACK_SECRET_KEY is not set"
  | some key =>
    if key = "" then Except.error "PAYSTACK_SECRET_KEY is not set"
    else
      match mpesaPhoneFormatted phone with
      | Except.error e => Except.error e
      | Except.ok _ =>
        let d : MpesaChargeData := (gw.data).getD ⟨none, none, none, none, none⟩
        if gw.status ∧ (d.status = some "pay_offline" ∨ d.status = some "pending") then
          Except.ok { reference := orElseStr d.reference reference,
                      status := (d.status).getD "",
                      display_text := orElseStr d.display_text
                        "Please complete authorization on your mobile phone" }
        else if gw.status = false then
          let raw := orElseStr gw.message ""
          Except.error (if raw = "Charge attempted" then
              "M-Pesa request could not be completed. Please try Card/Bank or check your phone number (use 2547XXXXXXXX)."
            else if raw = "" then "M-Pesa charge failed" else raw)
        else if d.status = some "failed" then
          Except.error (orElseStr d.gateway_response (orElseStr d.message "Payment could not be processed"))
        else
          Except.ok { reference := orElseStr d.reference reference,
                      status := orElseStr d.status "pay_offline",
                      display_text := orElseStr d.display_text
                        "Please complete authorization on your mobile phone" }

example : normalizeMpesaPhoneRaw "0712345678" = "254712345678" := by decide
example : normalizeMpesaPhoneRaw "712345678" = "254712345678" := by decide
example : normalizeMpesaPhoneRaw "+254712345678" = "254712345678" := by decide
example : mpesaPhoneFormatted "123456" = Except.error "Invalid phone number" := by decide

/-! ## Reconciliation coordinator (routes/applications.js: webhook + verify) -/

/-- A Paystack `authorization` object, fields the code reads. -/
structure AuthData where
  authorization_code : Option String
  reusable : Bool
  last4 : Option String
  card_type : Option String
deriving DecidableEq, Repr

/-- The `data` object of a Paystack event or verified transaction: fields read
by the webhook handler (charge and transfer events) and the verify route. -/
structure EventData where
  id : Option Int
  reference : Option String
  amount : Option Int
  authorization : Option AuthData
  transfer_code : Option String
  status : Option String
deriving DecidableEq, Repr

/-- A parsed webhook body: `event` name and `data`. -/
structure WebhookBody where
  event : Option String
  data : Option EventData
deriving DecidableEq, Repr

/-- JS truthiness of `auth?.authorization_code` (an empty string is falsy). -/
def authCodeTruthy (auth : AuthData) : Bool :=
  match auth.authorization_code with
  | some c => decide (c ≠ "")
  | none => false

/-- JS `opt || null` (an empty string becomes null). -/
def orNullStr (o : Option String) : Option String :=
  match o with
  | some s => if s = "" then none else some s
  | none => none

/-- `User.findByIdAndUpdate(uid, { paystackAuthorizationCode, paystackCardLast4,
paystackCardType })` as done by both confirmation paths. -/
def updateUserPaystack (uid : String) (auth : AuthData) (db : DB) : DB :=
  { db with users := db.users.map (fun u =>
      if u.id = uid then
        { u with paystackAuthorizationCode := auth.authorization_code,
                 paystackCardLast4 := orNullStr auth.last4,
                 paystackCardType := orNullStr auth.card_type }
      else u) }

/-- The charge.success branch of paystackWebhookHandler: parse the application
id out of the reference, load the application, and only when it is still
pending_payment set it to submitted with `String(id ?? reference)` as the
transaction id and the minor-unit amount divided by 100; then, best effort,
store a reusable authorization on the user. -/
def processChargeSuccess (data : EventData) (db : DB) : DB :=
  match data.reference with
  | none => db
  | some ref =>
    if ref ≠ "" ∧ startsWithTag ref then
      let applicationId := extractAppId ref
      match db.apps.find? (fun a => decide (a.id = applicationId)) with
      | none => db
      | some application =>
        if application.status = AppStatus.pending_payment then
          let txId : String := match data.id with
            | some i => toString i
            | none => ref
          let application' := { application with
            status := AppStatus.submitted,
            paymentTransactionId := some txId,
            amountPaid := match data.amount with
              | some a => some ((a : ℚ) / 100)
              | none => application.amountPaid }
          let db1 := saveApp application' db
          match data.authorization with
          | some auth =>
            if application.userId ≠ "" ∧ authCodeTruthy auth ∧ auth.reusable then
              updateUserPaystack application.userId auth db1
            else db1
          | none => db1
        else db
    else db


/-- JS `data?.transfer_code || data?.id` followed by the truthiness test
`if (transferCode && ...)`, then `String(transferCode)`: `none` encodes a falsy
transfer code (missing, empty string, or the number 0). -/
def transferCodeOf (data : EventData) : Option String :=
  let idFallback : Option String := match data.id with
    | some i => if i = 0 then none else some (toString i)
    | none => none
  match data.transfer_code with
  | some c => if c = "" then idFallback else some c
  | none => idFallback

/-- The transfer.success / transfer.failed branch of paystackWebhookHandler:
only when the carried status is "success", look the application up by its
stored refundTransferCode and stamp refundedAt; an unmatched code or any other
status does nothing. -/
def processTransferEvent (data : EventData) (now : Int) (db : DB) : DB :=
  match transferCodeOf data with
  | none => db
  | some code =>
    if data.status = some "success" then
      match db.apps.find? (fun a => decide (a.refundTransferCode = some code)) with
      | none => db
      | some app => saveApp { app with refundedAt := some now } db
    else db

/-- paystackWebhookHandler (routes/applications.js): verify the signature on
the raw body first and answer 401 without touching anything on failure; on
success the 200 acknowledgment is sent immediately and the body is parsed
(`parseBody` stands for JSON.parse; `none` is a parse failure, which is
swallowed), then the charge.success or transfer branches run.  The returned
pair is the HTTP status sent to the gateway and the database afterwards. -/
def paystackWebhookHandler (hmacHex : String → String → String)
    (secret : Option String) (parseBody : String → Option WebhookBody)
    (rawBody : String) (signature : Option String) (now : Int) (db : DB) :
    Nat × DB :=
  if verifyWebhookSignature hmacHex secret rawBody signature then
    match parseBody rawBody with
    | none => (200, db)
    | some body =>
      match body.data with
      | none => (200, db)
      | some data =>
        if body.event = some "charge.success" then
          (200, processChargeSuccess data db)
        else if body.event = some "transfer.success" ∨ body.event = some "transfer.failed" then
          (200, processTransferEvent data now db)
        else (200, db)
  else (401, db)

/-- verifyTransaction result as the verify-payment route consumes it:
`verified` is `tx.status === "success"`, `data` is the transaction object
(and its `authorization` field is what the route reads as
`result.authorization || tx.authorization`). -/
structure VerifyResult where
  verified : Bool
  data : EventData
deriving DecidableEq, Repr

/-- Responses of POST /verify-payment. -/
inductive VerifyResp
  | badRequest (msg : String)
  | notCompleted
  | verifiedOk
  | gatewayFailure (msg : String)
deriving DecidableEq, Repr

/-- POST /verify-payment (routes/applications.js): validate the reference,
ask the gateway (`gw`, standing for verifyTransaction; `Except.error` is a
thrown error caught by the route), and on a verified transaction perform the
same conditional pending_payment → submitted transition, this time scoped to
the requesting user; a missing or already-confirmed application still answers
`{verified: true}`. -/
def verifyPaymentRoute (uid : String) (reference : Option String)
    (gw : String → Except String VerifyResult) (db : DB) : VerifyResp × DB :=
  match reference with
  | none => (VerifyResp.badRequest "Reference is required", db)
  | some ref =>
    if ref = "" then (VerifyResp.badRequest "Reference is required", db)
    else if ¬ startsWithTag ref then (VerifyResp.badRequest "Invalid reference", db)
    else
      match gw ref with
      | Except.error m => (VerifyResp.gatewayFailure m, db)
      | Except.ok result =>
        if ¬ result.verified then (VerifyResp.notCompleted, db)
        else
          let applicationId := extractAppId ref
          match db.apps.find? (fun a =>
              decide (a.id = applicationId ∧ a.userId = uid ∧
                      a.status = AppStatus.pending_payment)) with
          | none => (VerifyResp.verifiedOk, db)
          | some application =>
            let tx := result.data
            let txId : String := match tx.id with
              | some i => toString i
              | none => match tx.reference with
                | some r => r
                | none => ref
            let application' := { application with
              status := AppStatus.submitted,
              paymentTransactionId := some txId,
              amountPaid := match tx.amount with
                | some a => some ((a : ℚ) / 100)
                | none => application.amountPaid }
            let db1 := saveApp application' db
            let db2 := match tx.authorization with
              | some auth =>
                if authCodeTruthy auth ∧ auth.reusable then
                  updateUserPaystack uid auth db1
                else db1
              | none => db1
            (VerifyResp.verifiedOk, db2)

/-! ## Refund manager (routes/applications.js: POST /admin/:id/refund) -/

/-- Responses of POST /admin/:id/refund. -/
inductive RefundResp
  | notFound
  | notPaid
  | noPayment
  | gwFailure (msg : String)
  | refunded (amount : ℚ)
deriving DecidableEq, Repr

/-- POST /admin/:id/refund (routes/applications.js).  First a conditional
claim: `findOneAndUpdate({_id, refundedAt: null}, {$set: {refundedAt: now}})`;
no match (missing or already refunded) answers 404.  Then the status gate: a
status outside the five paid statuses answers 400 — note the claimed
refundedAt is NOT rolled back on this branch.  A missing transaction id rolls
the claim back with `$unset` and answers 400.  Otherwise the gateway refund
(`gwRefund`, standing for refundTransaction; `Except.error` is a thrown error
caught by the route) runs for `amountPaid ?? opportunity.applicationFee ?? 350`
and on success refundAmount is recorded. -/
def adminRefund (appId : String) (now : Int)
    (gwRefund : String → ℚ → Except String Unit) (db : DB) : RefundResp × DB :=
  match db.apps.find? (fun a => decide (a.id = appId ∧ a.refundedAt = none)) with
  | none => (RefundResp.notFound, db)
  | some application =>
    let application1 := { application with refundedAt := some now }
    let db1 := saveApp application1 db
    if application1.status ≠ AppStatus.submitted ∧
       application1.status ≠ AppStatus.under_review ∧
       application1.status ≠ AppStatus.shortlisted ∧
       application1.status ≠ AppStatus.rejected ∧
       application1.status ≠ AppStatus.accepted then
      (RefundResp.notPaid, db1)
    else
      match application1.paymentTransactionId with
      | none =>
        let db2 := saveApp { application1 with refundedAt := none } db1
        (RefundResp.noPayment, db2)
      | some txId =>
        let amount : ℚ := match application1.amountPaid with
          | some a => a
          | none =>
            match (db.opps.find? (fun o =>
                decide (o.id = application1.opportunityId))).bind
                (fun o => o.applicationFee) with
            | some f => f
            | none => 350
        match gwRefund txId amount with
        | Except.error m => (RefundResp.gwFailure m, db1)
        | Except.ok _ =>
          (RefundResp.refunded amount,
           saveApp { application1 with refundAmount := some amount } db1)

/-! ## Create application (routes/applications.js: POST /) -/

/-- A multer in-memory file: original name, reported MIME type, raw bytes. -/
structure FileData where
  originalname : String
  mimetype : String
  buffer : List Nat
deriving DecidableEq, Repr

/-- validateDocFile result (src/utils/fileValidation.js). -/
structure ValidationResult where
  valid : Bool
  message : Option String
deriving DecidableEq, Repr

/-- Allowed MIME types (src/utils/fileValidation.js). -/
def ALLOWED_MIMES : List String :=
  ["application/pdf", "application/msword",
   "application/vnd.openxmlformats-officedocument.wordprocessingml.document"]

/-- JS `toLowerCase()`, character by character. -/
def jsToLower (s : String) : String :=
  String.mk (s.data.map Char.toLower)

/-- JS regex test of an anchored suffix alternative: suffix comparison. -/
def strEndsWith (s suf : String) : Bool :=
  suf.data.isSuffixOf s.data

/-- validateDocFile (src/utils/fileValidation.js): require a buffer, an
allowed extension on the lowercased original name, an allowed MIME type, at
least 8 bytes, and one of the three magic-byte prefixes. -/
def validateDocFile (file : Option FileData) : ValidationResult :=
  match file with
  | none => { valid := false, message := some "Invalid file" }
  | some f =>
    let ext := jsToLower f.originalname
    if ¬ (strEndsWith ext ".pdf" ∨ strEndsWith ext ".doc" ∨
          strEndsWith ext ".docx") then
      { valid := false, message := some "Only PDF, DOC, and DOCX files are allowed" }
    else if ¬ (f.mimetype ∈ ALLOWED_MIMES) then
      { valid := false, message := some "Invalid file type" }
    else if f.buffer.length < 8 then
      { valid := false, message := some "File too small or corrupted" }
    else
      let head4 := f.buffer.take 4
      if ¬ (head4 = [0x25, 0x50, 0x44, 0x46] ∨ head4 = [0x50, 0x4b, 0x03, 0x04] ∨
            head4 = [0xd0, 0xcf, 0x11, 0xe0]) then
        { valid := false,
          message := some "File content does not match allowed types (PDF, DOC, DOCX)" }
      else { valid := true, message := none }

/-- Responses of POST / (create application). -/
inductive CreateResp
  | oppNotFound
  | oppClosed
  | alreadyApplied
  | resumeRequired
  | badFile (msg : String)
  | recLetterRequired
  | serverError (msg : String)
  | created (appId : String) (paymentLink : String)
deriving DecidableEq, Repr

/-- POST / (routes/applications.js): look up the opportunity, refuse a second
application unless the existing one is still pending_payment, validate the
files, upload them (`resumeUpload` / `recUpload` hold the uploadToCloudinary
results; an `Except.error` is a thrown error caught by the route as a 500),
then either update the existing pending application in place or create a new
pending_payment one, and finally ask for a payment link (`initPay` holds the
getPaymentLink result). -/
def createApplicationRoute (uid : String) (oppId : String)
    (coverLetter : Option String) (resumeFile recFile : Option FileData)
    (resumeUpload recUpload : Except String String)
    (initPay : Except String String) (newId : String) (now : Int) (db : DB) :
    CreateResp × DB :=
  match db.opps.find? (fun o => decide (o.id = oppId)) with
  | none => (CreateResp.oppNotFound, db)
  | some opportunity =>
    if opportunity.isActive = false then (CreateResp.oppClosed, db)
    else
      let existing := db.apps.find? (fun a =>
        decide (a.userId = uid ∧ a.opportunityId = oppId))
      if (match existing with
          | some ex => decide (ex.status ≠ AppStatus.pending_payment)
          | none => false) then
        (CreateResp.alreadyApplied, db)
      else
        match resumeFile with
        | none => (CreateResp.resumeRequired, db)
        | some rf =>
          let resumeCheck := validateDocFile (some rf)
          if resumeCheck.valid = false then
            (CreateResp.badFile (resumeCheck.message.getD ""), db)
          else
            let isAttachment := opportunity.oppType = "attachment"
            if isAttachment ∧ recFile = none then (CreateResp.recLetterRequired, db)
            else
              let recCheckFailed : Option String := match recFile with
                | some g =>
                  let v := validateDocFile (some g)
                  if v.valid then none else some (v.message.getD "")
                | none => none
              match recCheckFailed with
              | some m => (CreateResp.badFile m, db)
              | none =>
                match resumeUpload with
                | Except.error m => (CreateResp.serverError m, db)
                | Except.ok resumeUrl =>
                  match (match recFile with
                         | some _ =>
                           match recUpload with
                           | Except.error m => Except.error m
                           | Except.ok u => Except.ok (some u)
                         | none => Except.ok (none : Option String)) with
                  | Except.error m => (CreateResp.serverError m, db)
                  | Except.ok recommendationLetterUrl =>
                    let pair : App × DB := match existing with
                      | some ex =>
                        if ex.status = AppStatus.pending_payment then
                          let ex' := { ex with
                            resumeUrl := resumeUrl,
                            recommendationLetterUrl := (match recFile with
                              | some _ => recommendationLetterUrl
                              | none => ex.recommendationLetterUrl),
                            coverLetter := (match coverLetter with
                              | some c => if c = "" then ex.coverLetter else some c
                              | none => ex.coverLetter) }
                          (ex', saveApp ex' db)
                        else
                          let na : App := {
                            id := newId, userId := uid,
                            opportunityId := oppId, resumeUrl := resumeUrl,
                            recommendationLetterUrl := recommendationLetterUrl,
                            coverLetter := (match coverLetter with
                              | some c => if c = "" then none else some c
                              | none => none),
                            status := AppStatus.pending_payment,
                            paymentTransactionId := none, amountPaid := none,
                            refundedAt := none, refundTransferCode := none,
                            refundAmount := none, createdAt := now }
                          (na, { db with apps := db.apps ++ [na] })
                      | none =>
                        let na : App := {
                          id := newId, userId := uid,
                          opportunityId := oppId, resumeUrl := resumeUrl,
                          recommendationLetterUrl := recommendationLetterUrl,
                          coverLetter := (match coverLetter with
                            | some c => if c = "" then none else some c
                            | none => none),
                          status := AppStatus.pending_payment,
                          paymentTransactionId := none, amountPaid := none,
                          refundedAt := none, refundTransferCode := none,
                          refundAmount := none, createdAt := now }
                        (na, { db with apps := db.apps ++ [na] })
                    match initPay with
                    | Except.error m => (CreateResp.serverError m, pair.2)
                    | Except.ok link => (CreateResp.created pair.1.id link, pair.2)

/-! ## Reminder scheduler (src/utils/scheduler.js: checkAndSendReminders) -/

/-- REMINDER_CONFIG.pending_payment.days. -/
def reminderDays : Int := 3

/-- REMINDER_CONFIG.pending_payment.maxReminders. -/
def maxReminders : Nat := 2

/-- Milliseconds in a day, as in `config.days * 24 * 60 * 60 * 1000`. -/
def dayMs : Int := 24 * 60 * 60 * 1000

/-- `Message.countDocuments({applicationId, type: "payment_reminder"})`. -/
def countPaymentReminders (msgs : List Msg) (aid : String) : Nat :=
  (msgs.filter (fun m =>
    decide (m.applicationId = aid ∧ m.msgType = MsgType.payment_reminder))).length

/-- The Message document the scheduler appends for an application. -/
def reminderMsg (app : App) (oppTitle : String) (now : Int) : Msg :=
  { userId := app.userId, applicationId := app.id,
    opportunityId := app.opportunityId, msgType := MsgType.payment_reminder,
    subject := "Complete your application for " ++ oppTitle,
    content := "You have a pending application that needs to be completed. Please proceed with payment to secure your opportunity.",
    read := false, emailSent := true, sentAt := now }

/-- One loop iteration of checkAndSendReminders over an overdue application:
count the existing payment_reminder entries and skip at the cap; skip (without
attempting a send) when the populated user or opportunity is missing; otherwise
attempt the send (`send` stands for sendApplicationReminderEmail; its Bool is
`emailResult.ok`, a thrown error behaving like false) and append the ledger
entry only when the send reported success.  The String list accumulates the
application ids for which a send was attempted. -/
def reminderStep (send : UserRec → App → Bool) (now : Int)
    (acc : DB × List String) (app : App) : DB × List String :=
  let db := acc.1
  let attempted := acc.2
  let existingReminders := countPaymentReminders db.messages app.id
  if maxReminders ≤ existingReminders then (db, attempted)
  else
    match db.users.find? (fun u => decide (u.id = app.userId)) with
    | none => (db, attempted)
    | some user =>
      match db.opps.find? (fun o => decide (o.id = app.opportunityId)) with
      | none => (db, attempted)
      | some opportunity =>
        if send user app then
          ({ db with
             messages := db.messages ++ [reminderMsg app opportunity.title now] },
           attempted ++ [app.id])
        else (db, attempted ++ [app.id])

/-- checkAndSendReminders (src/utils/scheduler.js): select every
pending_payment application created at or before `now` minus the staleness
threshold, then run the per-application loop.  Returns the new database and
the ids for which a notification send was attempted. -/
def checkAndSendReminders (send : UserRec → App → Bool) (now : Int) (db : DB) :
    DB × List String :=
  let overdue := db.apps.filter (fun a =>
    decide (a.status = AppStatus.pending_payment ∧
            a.createdAt ≤ now - reminderDays * dayMs))
  overdue.foldl (reminderStep send now) (db, [])

/-- A sequence of sweeps, each with its own sender behaviour and clock. -/
def sweepMany (params : List ((UserRec → App → Bool) × Int)) (db : DB) : DB :=
  params.foldl (fun s p => (checkAndSendReminders p.1 p.2 s).1) db

/-! ## Store lemmas shared by the claim proofs -/

/-- A `find?` result also answers any stronger query it happens to satisfy:
elements before it fail the stronger predicate because they already fail the
weaker one. -/
theorem find?_pred_strengthen {α : Type} (p q : α → Bool) (l : List α) (a : α)
    (h : l.find? p = some a) (hqa : q a = true)
    (himp : ∀ x, q x = true → p x = true) : l.find? q = some a := by
  induction l with
  | nil => simp at h
  | cons x xs ih =>
    by_cases hpx : p x = true
    · rw [List.find?_cons_of_pos _ hpx] at h
      have hxa : x = a := by injection h
      subst hxa
      rw [List.find?_cons_of_pos _ hqa]
    · have hqx : ¬ q x = true := fun hq => hpx (himp x hq)
      rw [List.find?_cons_of_neg _ hpx] at h
      rw [List.find?_cons_of_neg _ hqx]
      exact ih h

/-- After a by-id save, looking the id up returns the saved document, provided
some document with that id was present. -/
theorem find?_saveList (l : List App) (a' : App)
    (hex : ∃ x ∈ l, x.id = a'.id) :
    (l.map (fun a => if a.id = a'.id then a' else a)).find?
      (fun a => decide (a.id = a'.id)) = some a' := by
  induction l with
  | nil => simp at hex
  | cons x xs ih =>
    simp only [List.map_cons]
    by_cases hx : x.id = a'.id
    · rw [if_pos hx]
      rw [List.find?_cons_of_pos _ (by simp)]
    · rw [if_neg hx, List.find?_cons_of_neg _ (by simp [hx])]
      apply ih
      obtain ⟨y, hy, hid⟩ := hex
      rcases List.mem_cons.mp hy with rfl | hmem
      · exact absurd hid hx
      · exact ⟨y, hmem, hid⟩

/-- After a by-id save, any query that the saved document fails and that only
documents with the saved id could pass finds nothing. -/
theorem find?_saveList_none (l : List App) (a' : App) (p : App → Bool)
    (hpa : p a' = false) (himp : ∀ x, p x = true → x.id = a'.id) :
    (l.map (fun a => if a.id = a'.id then a' else a)).find? p = none := by
  rw [List.find?_eq_none]
  intro b hb
  rw [List.mem_map] at hb
  obtain ⟨y, hy, rfl⟩ := hb
  by_cases h : y.id = a'.id
  · rw [if_pos h]
    simp [hpa]
  · rw [if_neg h]
    intro hpy
    exact h (himp y hpy)

/-- A by-id save keeps a document with the saved id present. -/
theorem exists_id_save (l : List App) (a' a'' : App)
    (hex : ∃ x ∈ l, x.id = a'.id) (hi : a''.id = a'.id) :
    ∃ x ∈ l.map (fun a => if a.id = a'.id then a' else a), x.id = a''.id := by
  obtain ⟨x, hx, hid⟩ := hex
  refine ⟨a', List.mem_map.mpr ⟨x, hx, ?_⟩, hi.symm⟩
  rw [if_pos hid]

/-- `startsWithTag s` forces a nonempty string. -/
theorem startsWithTag_ne_empty (s : String) (h : startsWithTag s = true) :
    s ≠ "" := by
  intro he
  rw [he] at h
  exact absurd h (by decide)

/-- C4: every webhook request whose signature does not verify — in particular
every request when the shared secret is unconfigured or the signature header
is absent, since verifyWebhookSignature then returns false — is answered 401
by the webhook handler with no processing: the database (Application records
and Message ledger included) is returned unchanged. -/
theorem claim_C4_invalid_signature_rejected
    (hmacHex : String → String → String) (secret : Option String)
    (parseBody : String → Option WebhookBody) (rawBody : String)
    (signature : Option String) (now : Int) (db : DB) :
    (verifyWebhookSignature hmacHex secret rawBody signature = false →
      paystackWebhookHandler hmacHex secret parseBody rawBody signature now db =
        (401, db)) ∧
    ((secret = none ∨ signature = none) →
      verifyWebhookSignature hmacHex secret rawBody signature = false) := by
  constructor
  · intro h
    unfold paystackWebhookHandler
    rw [h]
    simp
  · intro h
    rcases h with rfl | rfl
    · rfl
    · cases secret <;> rfl

/-- C4 witness: with no configured secret and no signature header, a concrete
webhook request is rejected 401 and the store is untouched. -/
theorem claim_C4_witness :
    paystackWebhookHandler (fun _ _ => "") none (fun _ => none) "payload" none 0
        ⟨[], [], [], []⟩ = (401, ⟨[], [], [], []⟩) ∧
    verifyWebhookSignature (fun _ _ => "") none "payload" none = false := by
  have h := claim_C4_invalid_signature_rejected (fun _ _ => "") none
    (fun _ => none) "payload" none 0 ⟨[], [], [], []⟩
  exact ⟨h.1 (h.2 (Or.inl rfl)), h.2 (Or.inl rfl)⟩

/-- C9: a transfer-status webhook event whose data carries a status other than
"success" (in particular every transfer.failed event) changes no Application
record — optimistically stamped refund fields are neither cleared nor updated
— and the handler still acknowledges 200. -/
theorem claim_C9_transfer_non_success_noop
    (hmacHex : String → String → String) (secret : Option String)
    (parseBody : String → Option WebhookBody) (rawBody : String)
    (signature : Option String) (now : Int) (db : DB) (ev : String)
    (data : EventData)
    (hst : data.status ≠ some "success")
    (hev : ev = "transfer.success" ∨ ev = "transfer.failed")
    (hsig : verifyWebhookSignature hmacHex secret rawBody signature = true)
    (hparse : parseBody rawBody = some { event := some ev, data := some data }) :
    paystackWebhookHandler hmacHex secret parseBody rawBody signature now db =
      (200, db) ∧
    processTransferEvent data now db = db := by
  have hpt : processTransferEvent data now db = db := by
    unfold processTransferEvent
    cases h : transferCodeOf data with
    | none => rfl
    | some code => simp [hst]
  refine ⟨?_, hpt⟩
  unfold paystackWebhookHandler
  rw [hsig, hparse]
  have hne : ev ≠ "charge.success" := by
    rcases hev with rfl | rfl <;> decide
  rcases hev with rfl | rfl <;> simp [hne, hpt]

/-- Concrete store for the C9 witness: one application whose refund fields were
optimistically stamped by the transfer route. -/
def sampleStampedApp : App :=
  { id := "a9", userId := "u9", opportunityId := "o9", resumeUrl := "r",
    recommendationLetterUrl := none, coverLetter := none,
    status := AppStatus.submitted, paymentTransactionId := some "tx9",
    amountPaid := some 350, refundedAt := some 100, refundTransferCode := some "T1",
    refundAmount := some 350, createdAt := 0 }

/-- Concrete event for the C9 witness: a transfer.failed event for that
transfer code. -/
def sampleFailedTransfer : EventData :=
  { id := none, reference := none, amount := none, authorization := none,
    transfer_code := some "T1", status := some "failed" }

/-- C9 witness: a signed transfer.failed delivery acknowledges 200 and leaves
the stamped application untouched. -/
theorem claim_C9_witness :
    paystackWebhookHandler (fun _ _ => "ab") (some "sec")
        (fun _ => some { event := some "transfer.failed",
                         data := some sampleFailedTransfer })
        "raw" (some "ab") 7 ⟨[sampleStampedApp], [], [], []⟩ =
      (200, ⟨[sampleStampedApp], [], [], []⟩) ∧
    processTransferEvent sampleFailedTransfer 7 ⟨[sampleStampedApp], [], [], []⟩ =
      ⟨[sampleStampedApp], [], [], []⟩ :=
  claim_C9_transfer_non_success_noop (fun _ _ => "ab") (some "sec")
    (fun _ => some { event := some "transfer.failed",
                     data := some sampleFailedTransfer })
    "raw" (some "ab") 7 ⟨[sampleStampedApp], [], [], []⟩ "transfer.failed"
    sampleFailedTransfer (by decide) (Or.inr rfl) (by decide) rfl

/-- C8: the mobile-money charge phone normalization maps the local form
"0712345678" and the bare subscriber form "712345678" to the identical
canonical international form "+254712345678", leaves an already-prefixed
"254..." number unchanged apart from the leading plus, and rejects any input
whose normalized form is shorter than 12 digits with the "Invalid phone
number" error before the gateway response is even looked at (the error holds
for every possible gateway response `gw`). -/
theorem claim_C8_phone_normalization (p k ref : String) (gw : MpesaGwResp)
    (hk : k ≠ "")
    (hshort : (normalizeMpesaPhoneRaw p).length < 12) :
    mpesaPhoneFormatted "0712345678" = Except.ok "+254712345678" ∧
    mpesaPhoneFormatted "712345678" = Except.ok "+254712345678" ∧
    mpesaPhoneFormatted "254712345678" = Except.ok ("+" ++ "254712345678") ∧
    chargeMpesa (some k) ref p gw = Except.error "Invalid phone number" := by
  refine ⟨by decide, by decide, by decide, ?_⟩
  have hfmt : mpesaPhoneFormatted p = Except.error "Invalid phone number" := by
    unfold mpesaPhoneFormatted
    simp [hshort]
  unfold chargeMpesa
  rw [hfmt]
  simp [hk]

/-- C8 witness: a 6-digit input normalizes to 9 digits and is rejected,
whatever the gateway would have answered. -/
theorem claim_C8_witness :
    mpesaPhoneFormatted "0712345678" = Except.ok "+254712345678" ∧
    mpesaPhoneFormatted "712345678" = Except.ok "+254712345678" ∧
    mpesaPhoneFormatted "254712345678" = Except.ok ("+" ++ "254712345678") ∧
    chargeMpesa (some "sk") "APP-x-1" "123456" ⟨true, none, none⟩ =
      Except.error "Invalid phone number" :=
  claim_C8_phone_normalization "123456" "sk" "APP-x-1" ⟨true, none, none⟩
    (by decide) (by decide)

/-- Concrete unpaid application for C3: still pending_payment, never refunded. -/
def samplePendingApp : App :=
  { id := "a3", userId := "u3", opportunityId := "o3", resumeUrl := "r",
    recommendationLetterUrl := none, coverLetter := none,
    status := AppStatus.pending_payment, paymentTransactionId := none,
    amountPaid := none, refundedAt := none, refundTransferCode := none,
    refundAmount := none, createdAt := 0 }

/-- Concrete already-refunded application for C3. -/
def sampleRefundedApp : App :=
  { id := "a3r", userId := "u3", opportunityId := "o3", resumeUrl := "r",
    recommendationLetterUrl := none, coverLetter := none,
    status := AppStatus.submitted, paymentTransactionId := some "tx",
    amountPaid := some 350, refundedAt := some 50, refundTransferCode := none,
    refundAmount := some 350, createdAt := 0 }

/-- C3: the claim says a refund attempt on an unpaid or already-refunded
application leaves the record exactly as it was.  The already-refunded half
holds (second conjunct: the conditional claim matches nothing and the store is
returned untouched), but the unpaid half fails in the code: the
`findOneAndUpdate` claim stamps refundedAt before the status gate, and the
"Cannot refund application that has not been paid" branch returns without
rolling the stamp back, so the unpaid application comes out with refundedAt
set (first conjunct exhibits the mutation at a concrete input). -/
theorem claim_C3_unpaid_refund_mutates :
    adminRefund "a3" 5 (fun _ _ => Except.ok ()) ⟨[samplePendingApp], [], [], []⟩ =
      (RefundResp.notPaid,
       ⟨[{ samplePendingApp with refundedAt := some 5 }], [], [], []⟩) ∧
    samplePendingApp.refundedAt = none ∧
    adminRefund "a3r" 5 (fun _ _ => Except.ok ()) ⟨[sampleRefundedApp], [], [], []⟩ =
      (RefundResp.notFound, ⟨[sampleRefundedApp], [], [], []⟩) := by
  refine ⟨?_, rfl, ?_⟩ <;> decide

/-- Setting paymentTransactionId and refundedAt to the values they already
have is the identity. -/
theorem app_restore (a : App) (h1 : a.paymentTransactionId = none)
    (h2 : a.refundedAt = none) :
    { a with paymentTransactionId := none, refundedAt := none } = a := by
  cases a
  simp_all

/-- C5: a refund attempt on a payment-confirmed application (status beyond
pending_payment) with refundedAt unset and no stored paymentTransactionId
fails with the no-payment-to-refund error and rolls the tentatively claimed
refundedAt back: looking the application up afterwards returns exactly the
original record, refundedAt unset. -/
theorem claim_C5_no_transaction_rollback (appId : String) (now : Int)
    (gwRefund : String → ℚ → Except String Unit) (db : DB) (app : App)
    (hfind : db.apps.find?
      (fun a => decide (a.id = appId ∧ a.refundedAt = none)) = some app)
    (hpaid : app.status ≠ AppStatus.pending_payment)
    (htx : app.paymentTransactionId = none) :
    (adminRefund appId now gwRefund db).1 = RefundResp.noPayment ∧
    (adminRefund appId now gwRefund db).2.apps.find?
      (fun a => decide (a.id = appId)) = some app := by
  have hprop := List.find?_some hfind
  rw [decide_eq_true_eq] at hprop
  obtain ⟨hid, hnone⟩ := hprop
  have hmem := List.mem_of_find?_eq_some hfind
  have hgate : ¬ (app.status ≠ AppStatus.submitted ∧
      app.status ≠ AppStatus.under_review ∧
      app.status ≠ AppStatus.shortlisted ∧
      app.status ≠ AppStatus.rejected ∧
      app.status ≠ AppStatus.accepted) := by
    cases hs : app.status
    · exact absurd hs hpaid
    all_goals simp [hs]
  subst hid
  constructor
  · simp only [adminRefund, hfind]
    rw [if_neg hgate]
    simp [htx]
  · simp only [adminRefund, hfind]
    rw [if_neg hgate]
    simp only [htx]
    rw [app_restore app htx hnone]
    exact find?_saveList _ app
      (exists_id_save db.apps
        { app with paymentTransactionId := none, refundedAt := some now } app
        ⟨app, hmem, rfl⟩ rfl)

/-- Concrete application for the C5 witness: payment-confirmed status but no
stored transaction id. -/
def sampleNoTxApp : App :=
  { id := "a5", userId := "u5", opportunityId := "o5", resumeUrl := "r",
    recommendationLetterUrl := none, coverLetter := none,
    status := AppStatus.submitted, paymentTransactionId := none,
    amountPaid := none, refundedAt := none, refundTransferCode := none,
    refundAmount := none, createdAt := 0 }

/-- C5 witness: refunding that application answers the no-payment error and
the record afterwards is exactly the original, refundedAt unset. -/
theorem claim_C5_witness :
    (adminRefund "a5" 9 (fun _ _ => Except.ok ())
        ⟨[sampleNoTxApp], [], [], []⟩).1 = RefundResp.noPayment ∧
    (adminRefund "a5" 9 (fun _ _ => Except.ok ())
        ⟨[sampleNoTxApp], [], [], []⟩).2.apps.find?
      (fun a => decide (a.id = "a5")) = some sampleNoTxApp :=
  claim_C5_no_transaction_rollback "a5" 9 (fun _ _ => Except.ok ())
    ⟨[sampleNoTxApp], [], [], []⟩ sampleNoTxApp (by decide) (by decide)
    (by decide)

/-! ## Reminder sweep lemmas -/

/-- Appending one message changes the payment_reminder count of an application
by one exactly when the message is a payment_reminder for it. -/
theorem countPaymentReminders_append (msgs : List Msg) (m : Msg) (i : String) :
    countPaymentReminders (msgs ++ [m]) i =
      countPaymentReminders msgs i +
        (if m.applicationId = i ∧ m.msgType = MsgType.payment_reminder
         then 1 else 0) := by
  unfold countPaymentReminders
  rw [List.filter_append, List.length_append]
  by_cases h : m.applicationId = i ∧ m.msgType = MsgType.payment_reminder
  · simp [h]
  · simp [h]

/-- One loop iteration never touches the payment_reminder count of a
different application. -/
theorem reminderStep_count_other (send : UserRec → App → Bool) (now : Int)
    (acc : DB × List String) (app : App) (i : String) (hne : app.id ≠ i) :
    countPaymentReminders ((reminderStep send now acc app).1).messages i =
      countPaymentReminders acc.1.messages i := by
  unfold reminderStep
  by_cases hcap : maxReminders ≤ countPaymentReminders acc.1.messages app.id
  · rw [if_pos hcap]
  · rw [if_neg hcap]
    cases acc.1.users.find? (fun u => decide (u.id = app.userId)) with
    | none => rfl
    | some user =>
      dsimp only
      cases acc.1.opps.find? (fun o => decide (o.id = app.opportunityId)) with
      | none => rfl
      | some opportunity =>
        dsimp only
        by_cases hs : send user app = true
        · rw [if_pos hs]
          simp only [countPaymentReminders_append]
          rw [if_neg (by simp [reminderMsg, hne])]
          exact Nat.add_zero _
        · rw [if_neg hs]

/-- One loop iteration for an application already at the cap is the identity
(no send attempt, no ledger entry, nothing else changed). -/
theorem reminderStep_at_cap (send : UserRec → App → Bool) (now : Int)
    (acc : DB × List String) (app : App)
    (hcap : maxReminders ≤ countPaymentReminders acc.1.messages app.id) :
    reminderStep send now acc app = acc := by
  unfold reminderStep
  rw [if_pos hcap]

/-- One loop iteration either leaves the attempted-send log alone or appends
the id of the application being processed. -/
theorem reminderStep_log (send : UserRec → App → Bool) (now : Int)
    (acc : DB × List String) (app : App) :
    (reminderStep send now acc app).2 = acc.2 ∨
    (reminderStep send now acc app).2 = acc.2 ++ [app.id] := by
  unfold reminderStep
  by_cases hcap : maxReminders ≤ countPaymentReminders acc.1.messages app.id
  · rw [if_pos hcap]
    exact Or.inl rfl
  · rw [if_neg hcap]
    cases acc.1.users.find? (fun u => decide (u.id = app.userId)) with
    | none => exact Or.inl rfl
    | some user =>
      dsimp only
      cases acc.1.opps.find? (fun o => decide (o.id = app.opportunityId)) with
      | none => exact Or.inl rfl
      | some opportunity =>
        dsimp only
        by_cases hs : send user app = true
        · rw [if_pos hs]
          exact Or.inr rfl
        · rw [if_neg hs]
          exact Or.inr rfl

/-- Folding the loop from a state where application `i` is already at the cap
keeps its count unchanged and never attempts a send for it. -/
theorem reminderFold_capped (send : UserRec → App → Bool) (now : Int)
    (i : String) (l : List App) :
    ∀ acc : DB × List String,
      maxReminders ≤ countPaymentReminders acc.1.messages i →
      countPaymentReminders
          ((l.foldl (reminderStep send now) acc).1).messages i =
        countPaymentReminders acc.1.messages i ∧
      (i ∉ acc.2 → i ∉ (l.foldl (reminderStep send now) acc).2) := by
  induction l with
  | nil => exact fun acc _ => ⟨rfl, fun h => h⟩
  | cons a t ih =>
    intro acc h
    rw [List.foldl_cons]
    by_cases hai : a.id = i
    · rw [reminderStep_at_cap send now acc a (by rw [hai]; exact h)]
      exact ih acc h
    · have hcount := reminderStep_count_other send now acc a i hai
      have h' : maxReminders ≤
          countPaymentReminders ((reminderStep send now acc a).1).messages i := by
        rw [hcount]; exact h
      obtain ⟨hc, hl⟩ := ih (reminderStep send now acc a) h'
      refine ⟨by rw [hc, hcount], fun hmem => hl ?_⟩
      rcases reminderStep_log send now acc a with heq | heq
      · rw [heq]; exact hmem
      · rw [heq]
        intro hcon
        rcases List.mem_append.mp hcon with hx | hx
        · exact hmem hx
        · exact hai (List.mem_singleton.mp hx).symm

/-- Any number of later sweeps keeps the payment_reminder count of an
application that already reached the cap unchanged. -/
theorem sweepMany_capped (i : String)
    (params : List ((UserRec → App → Bool) × Int)) :
    ∀ db : DB, maxReminders ≤ countPaymentReminders db.messages i →
      countPaymentReminders (sweepMany params db).messages i =
        countPaymentReminders db.messages i := by
  induction params with
  | nil => exact fun db _ => rfl
  | cons p t ih =>
    intro db h
    have h1 : countPaymentReminders
        ((checkAndSendReminders p.1 p.2 db).1).messages i =
        countPaymentReminders db.messages i :=
      (reminderFold_capped p.1 p.2 i
        (db.apps.filter (fun a =>
          decide (a.status = AppStatus.pending_payment ∧
                  a.createdAt ≤ p.2 - reminderDays * dayMs)))
        (db, []) h).1
    have h2 : maxReminders ≤ countPaymentReminders
        ((checkAndSendReminders p.1 p.2 db).1).messages i := by
      rw [h1]; exact h
    show countPaymentReminders
        (sweepMany t ((checkAndSendReminders p.1 p.2 db).1)).messages i =
      countPaymentReminders db.messages i
    rw [ih _ h2, h1]

/-- C6: an overdue pending_payment application whose payment_reminder ledger
count has reached the configured maximum (2) gets no send attempt from the
sweep, and any sequence of later sequential sweeps leaves its
payment_reminder count exactly where it was — the cap is never exceeded. -/
theorem claim_C6_reminder_cap (db : DB) (send : UserRec → App → Bool)
    (now : Int) (i : String)
    (h2 : maxReminders ≤ countPaymentReminders db.messages i) :
    i ∉ (checkAndSendReminders send now db).2 ∧
    ∀ params : List ((UserRec → App → Bool) × Int),
      countPaymentReminders (sweepMany params db).messages i =
        countPaymentReminders db.messages i := by
  refine ⟨?_, fun params => sweepMany_capped i params db h2⟩
  exact (reminderFold_capped send now i
    (db.apps.filter (fun a =>
      decide (a.status = AppStatus.pending_payment ∧
              a.createdAt ≤ now - reminderDays * dayMs)))
    (db, []) h2).2 (List.not_mem_nil i)

/-- A payment_reminder ledger entry for the C6 witness application. -/
def sampleReminderEntry : Msg :=
  { userId := "u6", applicationId := "a6", opportunityId := "o6",
    msgType := MsgType.payment_reminder, subject := "s", content := "c",
    read := false, emailSent := true, sentAt := 1 }

/-- Concrete store for the C6 witness: one overdue pending application with
its user and opportunity present and 2 payment_reminder entries already in
the ledger. -/
def sampleCapDB : DB :=
  { apps := [{ id := "a6", userId := "u6", opportunityId := "o6",
               resumeUrl := "r", recommendationLetterUrl := none,
               coverLetter := none, status := AppStatus.pending_payment,
               paymentTransactionId := none, amountPaid := none,
               refundedAt := none, refundTransferCode := none,
               refundAmount := none, createdAt := 0 }],
    users := [{ id := "u6", name := "N", email := "e@x",
                paystackAuthorizationCode := none, paystackCardLast4 := none,
                paystackCardType := none }],
    opps := [{ id := "o6", title := "T", isActive := true, oppType := "internship",
               applicationFee := some 350 }],
    messages := [sampleReminderEntry, sampleReminderEntry] }

/-- C6 witness: with 2 existing entries, a sweep whose sender always succeeds
attempts nothing for the application, and two further sweeps leave the count
at 2. -/
theorem claim_C6_witness :
    "a6" ∉ (checkAndSendReminders (fun _ _ => true) 300000000 sampleCapDB).2 ∧
    countPaymentReminders
        (sweepMany [(fun _ _ => true, 300000000), (fun _ _ => true, 400000000)]
          sampleCapDB).messages "a6" =
      countPaymentReminders sampleCapDB.messages "a6" := by
  have h := claim_C6_reminder_cap sampleCapDB (fun _ _ => true) 300000000 "a6"
    (by decide)
  exact ⟨h.1, h.2 _⟩

/-- One loop iteration appends no message for application `i` when every send
for `i` fails (and messages for other applications never carry id `i`). -/
theorem reminderStep_filter_failed (send : UserRec → App → Bool) (now : Int)
    (i : String) (hsend : ∀ u a, a.id = i → send u a = false)
    (acc : DB × List String) (app : App) :
    ((reminderStep send now acc app).1).messages.filter
        (fun m => decide (m.applicationId = i)) =
      acc.1.messages.filter (fun m => decide (m.applicationId = i)) := by
  unfold reminderStep
  by_cases hcap : maxReminders ≤ countPaymentReminders acc.1.messages app.id
  · rw [if_pos hcap]
  · rw [if_neg hcap]
    cases acc.1.users.find? (fun u => decide (u.id = app.userId)) with
    | none => rfl
    | some user =>
      dsimp only
      cases acc.1.opps.find? (fun o => decide (o.id = app.opportunityId)) with
      | none => rfl
      | some opportunity =>
        dsimp only
        by_cases hai : app.id = i
        · rw [if_neg (by rw [hsend user app hai]; simp)]
        · by_cases hs : send user app = true
          · rw [if_pos hs]
            dsimp only
            rw [List.filter_append]
            simp [reminderMsg, hai]
          · rw [if_neg hs]

/-- Folding the loop appends no message for application `i` when every send
for `i` fails. -/
theorem reminderFold_failed (send : UserRec → App → Bool) (now : Int)
    (i : String) (hsend : ∀ u a, a.id = i → send u a = false) (l : List App) :
    ∀ acc : DB × List String,
      ((l.foldl (reminderStep send now) acc).1).messages.filter
          (fun m => decide (m.applicationId = i)) =
        acc.1.messages.filter (fun m => decide (m.applicationId = i)) := by
  induction l with
  | nil => exact fun _ => rfl
  | cons a t ih =>
    intro acc
    rw [List.foldl_cons, ih, reminderStep_filter_failed send now i hsend]

/-- C7: a Message ledger entry for an application is appended by the sweep
only when the notification send for it reported success: when every send for
application `i` fails or errors, the sweep leaves the set of ledger entries
carrying `i` exactly as it was, so a failed send never consumes a reminder
slot. -/
theorem claim_C7_failed_send_no_entry (db : DB) (send : UserRec → App → Bool)
    (now : Int) (i : String)
    (hsend : ∀ u a, a.id = i → send u a = false) :
    ((checkAndSendReminders send now db).1).messages.filter
        (fun m => decide (m.applicationId = i)) =
      db.messages.filter (fun m => decide (m.applicationId = i)) :=
  reminderFold_failed send now i hsend _ (db, [])

/-- Concrete store for the C7 witness: one overdue pending application, user
and opportunity present, no prior ledger entries, so a send is attempted. -/
def sampleOverdueDB : DB :=
  { apps := [{ id := "a7", userId := "u7", opportunityId := "o7",
               resumeUrl := "r", recommendationLetterUrl := none,
               coverLetter := none, status := AppStatus.pending_payment,
               paymentTransactionId := none, amountPaid := none,
               refundedAt := none, refundTransferCode := none,
               refundAmount := none, createdAt := 0 }],
    users := [{ id := "u7", name := "N", email := "e@x",
                paystackAuthorizationCode := none, paystackCardLast4 := none,
                paystackCardType := none }],
    opps := [{ id := "o7", title := "T", isActive := true, oppType := "internship",
               applicationFee := some 350 }],
    messages := [] }

/-- C7 witness: a sweep whose sender always fails appends no entry for the
overdue application. -/
theorem claim_C7_witness :
    ((checkAndSendReminders (fun _ _ => false) 300000000 sampleOverdueDB).1).messages.filter
        (fun m => decide (m.applicationId = "a7")) =
      sampleOverdueDB.messages.filter (fun m => decide (m.applicationId = "a7")) :=
  claim_C7_failed_send_no_entry sampleOverdueDB (fun _ _ => false) 300000000 "a7"
    (fun _ _ _ => rfl)

/-! ## Confirmation reconciliation: the two racing channels (C1, C2) -/

/-- The two confirmation channels. -/
inductive Channel
  | webhook
  | verify
deriving DecidableEq, Repr

/-- One sequential delivery of a fixed confirming event: either through the
(signature-checked, parsed) charge.success branch of the webhook handler, or
through POST /verify-payment called by user `uid` with reference `refV`, the
gateway reporting the same transaction `d` as verified. -/
def deliverOnce (d : EventData) (uid refV : String) : Channel → DB → DB
  | Channel.webhook, db => processChargeSuccess d db
  | Channel.verify, db =>
    (verifyPaymentRoute uid (some refV)
      (fun _ => Except.ok { verified := true, data := d }) db).2

/-- The confirmed application record the accepted delivery writes: status
submitted, transaction id `String(id ?? reference)`, minor-unit amount divided
by 100. -/
def confirmedApp (d : EventData) (ref : String) (app : App) : App :=
  { app with
    status := AppStatus.submitted,
    paymentTransactionId := some (match d.id with
      | some i => toString i
      | none => ref),
    amountPaid := match d.amount with
      | some a => some ((a : ℚ) / 100)
      | none => app.amountPaid }

/-- The database the webhook charge.success branch leaves behind on the
accepted delivery. -/
def webhookConfirmed (d : EventData) (ref : String) (app : App) (db : DB) : DB :=
  let db1 := saveApp (confirmedApp d ref app) db
  match d.authorization with
  | some auth =>
    if app.userId ≠ "" ∧ authCodeTruthy auth ∧ auth.reusable then
      updateUserPaystack app.userId auth db1
    else db1
  | none => db1

/-- The database the verify route leaves behind on the accepted delivery. -/
def verifyConfirmed (d : EventData) (ref uid : String) (app : App) (db : DB) : DB :=
  let db1 := saveApp (confirmedApp d ref app) db
  match d.authorization with
  | some auth =>
    if authCodeTruthy auth ∧ auth.reusable then updateUserPaystack uid auth db1
    else db1
  | none => db1

/-- Neither confirmed database differs from the plain conditional update in
its Application collection (the best-effort user update touches users only). -/
theorem webhookConfirmed_apps (d : EventData) (ref : String) (app : App)
    (db : DB) :
    (webhookConfirmed d ref app db).apps =
      (saveApp (confirmedApp d ref app) db).apps := by
  unfold webhookConfirmed
  cases d.authorization with
  | none => rfl
  | some auth =>
    dsimp only
    by_cases h : app.userId ≠ "" ∧ authCodeTruthy auth = true ∧ auth.reusable = true
    · rw [if_pos h]
      rfl
    · rw [if_neg h]

/-- Same fact for the verify channel. -/
theorem verifyConfirmed_apps (d : EventData) (ref uid : String) (app : App)
    (db : DB) :
    (verifyConfirmed d ref uid app db).apps =
      (saveApp (confirmedApp d ref app) db).apps := by
  unfold verifyConfirmed
  cases d.authorization with
  | none => rfl
  | some auth =>
    dsimp only
    by_cases h : authCodeTruthy auth = true ∧ auth.reusable = true
    · rw [if_pos h]
      rfl
    · rw [if_neg h]

/-- The webhook charge.success branch on a still-pending application performs
exactly the confirming update. -/
theorem deliver_webhook_eq (d : EventData) (ref : String) (app : App) (db : DB)
    (hd : d.reference = some ref)
    (hstart : startsWithTag ref = true)
    (hx : extractAppId ref = app.id)
    (hfind : db.apps.find? (fun a => decide (a.id = app.id)) = some app)
    (hst : app.status = AppStatus.pending_payment) :
    processChargeSuccess d db = webhookConfirmed d ref app db := by
  have hne : ref ≠ "" := startsWithTag_ne_empty ref hstart
  unfold processChargeSuccess
  rw [hd]
  dsimp only
  rw [if_pos ⟨hne, hstart⟩, hx, hfind]
  dsimp only
  rw [if_pos hst]
  rfl

/-- The verify route on a still-pending application owned by the caller
performs exactly the confirming update and answers verified. -/
theorem deliver_verify_eq (d : EventData) (ref refV uid : String) (app : App)
    (db : DB)
    (hd : d.reference = some ref)
    (hstartV : startsWithTag refV = true)
    (hxV : extractAppId refV = app.id)
    (hfind : db.apps.find? (fun a => decide (a.id = app.id)) = some app)
    (hst : app.status = AppStatus.pending_payment)
    (huid : app.userId = uid) :
    verifyPaymentRoute uid (some refV)
        (fun _ => Except.ok { verified := true, data := d }) db =
      (VerifyResp.verifiedOk, verifyConfirmed d ref uid app db) := by
  have hne : refV ≠ "" := startsWithTag_ne_empty refV hstartV
  have hfind2 : db.apps.find? (fun a =>
      decide (a.id = app.id ∧ a.userId = uid ∧
              a.status = AppStatus.pending_payment)) = some app := by
    apply find?_pred_strengthen _ _ _ _ hfind
    · rw [decide_eq_true_eq]
      exact ⟨rfl, huid, hst⟩
    · intro x hx2
      rw [decide_eq_true_eq] at hx2 ⊢
      exact hx2.1
  have htx : (match d.id with
      | some i => toString i
      | none => (match d.reference with
        | some r => r
        | none => refV)) = (match d.id with
      | some i => toString i
      | none => ref) := by
    cases d.id with
    | some i => rfl
    | none => rw [hd]
  unfold verifyPaymentRoute
  dsimp only
  rw [if_neg hne, if_neg (by simp [hstartV])]
  rw [if_neg (by simp), hxV, hfind2]
  dsimp only
  rw [htx]
  rfl

/-- A redelivered charge.success for an application that is no longer
pending_payment is acknowledged and discarded: the database is unchanged. -/
theorem processChargeSuccess_noop (d : EventData) (ref : String) (app' : App)
    (db' : DB)
    (hd : d.reference = some ref)
    (hstart : startsWithTag ref = true)
    (hx : extractAppId ref = app'.id)
    (hfind : db'.apps.find? (fun a => decide (a.id = app'.id)) = some app')
    (hst : app'.status ≠ AppStatus.pending_payment) :
    processChargeSuccess d db' = db' := by
  have hne : ref ≠ "" := startsWithTag_ne_empty ref hstart
  unfold processChargeSuccess
  rw [hd]
  dsimp only
  rw [if_pos ⟨hne, hstart⟩, hx, hfind]
  dsimp only
  rw [if_neg hst]

/-- A verify call for an application the scoped conditional query no longer
matches still answers verified and changes nothing. -/
theorem verifyRoute_noop (d : EventData) (refV uid aid : String) (db' : DB)
    (hstartV : startsWithTag refV = true)
    (hxV : extractAppId refV = aid)
    (hnone : db'.apps.find? (fun a =>
      decide (a.id = aid ∧ a.userId = uid ∧
              a.status = AppStatus.pending_payment)) = none) :
    verifyPaymentRoute uid (some refV)
        (fun _ => Except.ok { verified := true, data := d }) db' =
      (VerifyResp.verifiedOk, db') := by
  have hne : refV ≠ "" := startsWithTag_ne_empty refV hstartV
  unfold verifyPaymentRoute
  dsimp only
  rw [if_neg hne, if_neg (by simp [hstartV])]
  rw [if_neg (by simp), hxV, hnone]

/-- Once the application is confirmed, every further delivery of the event
through either channel is a no-op, and the verify channel still answers
verified (no error). -/
theorem deliver_stable (d : EventData) (ref refV uid : String) (app : App)
    (db db' : DB)
    (hd : d.reference = some ref)
    (hstart : startsWithTag ref = true)
    (hstartV : startsWithTag refV = true)
    (hx : extractAppId ref = app.id)
    (hxV : extractAppId refV = app.id)
    (hfind : db.apps.find? (fun a => decide (a.id = app.id)) = some app)
    (happs : db'.apps = (saveApp (confirmedApp d ref app) db).apps) :
    (∀ c, deliverOnce d uid refV c db' = db') ∧
    (verifyPaymentRoute uid (some refV)
        (fun _ => Except.ok { verified := true, data := d }) db').1 =
      VerifyResp.verifiedOk := by
  have hmem : ∃ x ∈ db.apps, x.id = (confirmedApp d ref app).id :=
    ⟨app, List.mem_of_find?_eq_some hfind, rfl⟩
  have hfind' : db'.apps.find? (fun a => decide (a.id = app.id)) =
      some (confirmedApp d ref app) := by
    rw [happs]
    exact find?_saveList db.apps (confirmedApp d ref app) hmem
  have hnone' : db'.apps.find? (fun a =>
      decide (a.id = app.id ∧ a.userId = uid ∧
              a.status = AppStatus.pending_payment)) = none := by
    rw [happs]
    apply find?_saveList_none
    · simp [confirmedApp]
    · intro x hx2
      rw [decide_eq_true_eq] at hx2
      exact hx2.1
  have hverify := verifyRoute_noop d refV uid app.id db' hstartV hxV hnone'
  refine ⟨fun c => ?_, by rw [hverify]⟩
  cases c with
  | webhook =>
    exact processChargeSuccess_noop d ref (confirmedApp d ref app) db' hd
      hstart hx hfind' (by simp [confirmedApp])
  | verify =>
    show (verifyPaymentRoute uid (some refV)
        (fun _ => Except.ok { verified := true, data := d }) db').2 = db'
    rw [hverify]

/-- C1: for an Application in pending_payment, delivering the same confirming
event any number of times sequentially through the webhook handler and/or the
verify-payment call moves it to submitted exactly once: after the first
accepted delivery the record is the confirmed one (transaction id and amount
from that event), every further delivery — singly or as any sequence of
channels — leaves the database unchanged, and a redelivered verify still
answers verified rather than an error. -/
theorem claim_C1_confirmation_idempotent
    (db : DB) (d : EventData) (app : App) (uid ref refV : String)
    (hd : d.reference = some ref)
    (hstart : startsWithTag ref = true)
    (hstartV : startsWithTag refV = true)
    (hx : extractAppId ref = app.id)
    (hxV : extractAppId refV = app.id)
    (hfind : db.apps.find? (fun a => decide (a.id = app.id)) = some app)
    (hst : app.status = AppStatus.pending_payment)
    (huid : app.userId = uid) :
    ∀ c0 : Channel,
      (deliverOnce d uid refV c0 db).apps.find?
          (fun a => decide (a.id = app.id)) = some (confirmedApp d ref app) ∧
      (confirmedApp d ref app).status = AppStatus.submitted ∧
      (confirmedApp d ref app).paymentTransactionId =
        some (match d.id with | some i => toString i | none => ref) ∧
      (∀ c, deliverOnce d uid refV c (deliverOnce d uid refV c0 db) =
          deliverOnce d uid refV c0 db) ∧
      (∀ cs : List Channel,
        cs.foldl (fun s c => deliverOnce d uid refV c s)
          (deliverOnce d uid refV c0 db) = deliverOnce d uid refV c0 db) ∧
      (verifyPaymentRoute uid (some refV)
          (fun _ => Except.ok { verified := true, data := d })
          (deliverOnce d uid refV c0 db)).1 = VerifyResp.verifiedOk := by
  intro c0
  have happs : (deliverOnce d uid refV c0 db).apps =
      (saveApp (confirmedApp d ref app) db).apps := by
    cases c0 with
    | webhook =>
      show (processChargeSuccess d db).apps = _
      rw [deliver_webhook_eq d ref app db hd hstart hx hfind hst]
      exact webhookConfirmed_apps d ref app db
    | verify =>
      show (verifyPaymentRoute uid (some refV)
        (fun _ => Except.ok { verified := true, data := d }) db).2.apps = _
      rw [deliver_verify_eq d ref refV uid app db hd hstartV hxV hfind hst huid]
      exact verifyConfirmed_apps d ref uid app db
  obtain ⟨hstab, hresp⟩ := deliver_stable d ref refV uid app db
    (deliverOnce d uid refV c0 db) hd hstart hstartV hx hxV hfind happs
  have hfold : ∀ cs : List Channel,
      cs.foldl (fun s c => deliverOnce d uid refV c s)
        (deliverOnce d uid refV c0 db) = deliverOnce d uid refV c0 db := by
    intro cs
    induction cs with
    | nil => rfl
    | cons c t ih =>
      rw [List.foldl_cons, hstab c]
      exact ih
  refine ⟨?_, rfl, rfl, hstab, hfold, hresp⟩
  rw [happs]
  exact find?_saveList db.apps (confirmedApp d ref app)
    ⟨app, List.mem_of_find?_eq_some hfind, rfl⟩

/-- C2: for an Application in pending_payment and a single gateway transaction
reported by both channels, webhook-then-verify and verify-then-webhook end in
the same database: same application state (status, transaction id, amount)
and same stored authorization token on the user. -/
theorem claim_C2_channels_commute
    (db : DB) (d : EventData) (app : App) (uid ref refV : String)
    (hd : d.reference = some ref)
    (hstart : startsWithTag ref = true)
    (hstartV : startsWithTag refV = true)
    (hx : extractAppId ref = app.id)
    (hxV : extractAppId refV = app.id)
    (hfind : db.apps.find? (fun a => decide (a.id = app.id)) = some app)
    (hst : app.status = AppStatus.pending_payment)
    (huid : app.userId = uid)
    (huidne : uid ≠ "") :
    deliverOnce d uid refV Channel.verify
        (deliverOnce d uid refV Channel.webhook db) =
      deliverOnce d uid refV Channel.webhook
        (deliverOnce d uid refV Channel.verify db) := by
  have hw : deliverOnce d uid refV Channel.webhook db =
      webhookConfirmed d ref app db :=
    deliver_webhook_eq d ref app db hd hstart hx hfind hst
  have hv : deliverOnce d uid refV Channel.verify db =
      verifyConfirmed d ref uid app db := by
    show (verifyPaymentRoute uid (some refV)
      (fun _ => Except.ok { verified := true, data := d }) db).2 = _
    rw [deliver_verify_eq d ref refV uid app db hd hstartV hxV hfind hst huid]
  have heq : webhookConfirmed d ref app db = verifyConfirmed d ref uid app db := by
    unfold webhookConfirmed verifyConfirmed
    cases d.authorization with
    | none => rfl
    | some auth =>
      dsimp only
      have hiff : (app.userId ≠ "" ∧ authCodeTruthy auth = true ∧
          auth.reusable = true) ↔
          (authCodeTruthy auth = true ∧ auth.reusable = true) := by
        rw [huid]
        simp [huidne]
      by_cases hc : authCodeTruthy auth = true ∧ auth.reusable = true
      · rw [if_pos (hiff.mpr hc), if_pos hc, huid]
      · rw [if_neg (fun hh => hc (hiff.mp hh)), if_neg hc]
  have hstabW := (deliver_stable d ref refV uid app db
    (deliverOnce d uid refV Channel.webhook db) hd hstart hstartV hx hxV hfind
    (by rw [hw]; exact webhookConfirmed_apps d ref app db)).1
  have hstabV := (deliver_stable d ref refV uid app db
    (deliverOnce d uid refV Channel.verify db) hd hstart hstartV hx hxV hfind
    (by rw [hv]; exact verifyConfirmed_apps d ref uid app db)).1
  calc deliverOnce d uid refV Channel.verify
        (deliverOnce d uid refV Channel.webhook db)
      = deliverOnce d uid refV Channel.webhook db := hstabW Channel.verify
    _ = webhookConfirmed d ref app db := hw
    _ = verifyConfirmed d ref uid app db := heq
    _ = deliverOnce d uid refV Channel.verify db := hv.symm
    _ = deliverOnce d uid refV Channel.webhook
        (deliverOnce d uid refV Channel.verify db) :=
      (hstabV Channel.webhook).symm

/-- Concrete pending application for the C1/C2 witnesses. -/
def sampleConfApp : App :=
  { id := "a1", userId := "u1", opportunityId := "o1", resumeUrl := "r",
    recommendationLetterUrl := none, coverLetter := none,
    status := AppStatus.pending_payment, paymentTransactionId := none,
    amountPaid := none, refundedAt := none, refundTransferCode := none,
    refundAmount := none, createdAt := 0 }

/-- Concrete owning user for the C1/C2 witnesses. -/
def sampleConfUser : UserRec :=
  { id := "u1", name := "N", email := "e@x",
    paystackAuthorizationCode := none, paystackCardLast4 := none,
    paystackCardType := none }

/-- Concrete confirming charge event (with a reusable authorization) for the
C1/C2 witnesses. -/
def sampleChargeEvent : EventData :=
  { id := some 77, reference := some "APP-a1-1700", amount := some 35000,
    authorization := some { authorization_code := some "AUTH1",
                            reusable := true, last4 := some "1234",
                            card_type := some "visa" },
    transfer_code := none, status := some "success" }

/-- Concrete store for the C1/C2 witnesses. -/
def sampleConfDB : DB :=
  { apps := [sampleConfApp], users := [sampleConfUser], opps := [],
    messages := [] }

/-- C1 witness: a first webhook delivery confirms the application, and three
further deliveries (verify, webhook, verify) change nothing. -/
theorem claim_C1_witness :
    (deliverOnce sampleChargeEvent "u1" "APP-a1-1701" Channel.webhook
        sampleConfDB).apps.find? (fun a => decide (a.id = sampleConfApp.id)) =
      some (confirmedApp sampleChargeEvent "APP-a1-1700" sampleConfApp) ∧
    [Channel.verify, Channel.webhook, Channel.verify].foldl
        (fun s c => deliverOnce sampleChargeEvent "u1" "APP-a1-1701" c s)
        (deliverOnce sampleChargeEvent "u1" "APP-a1-1701" Channel.webhook
          sampleConfDB) =
      deliverOnce sampleChargeEvent "u1" "APP-a1-1701" Channel.webhook
        sampleConfDB := by
  obtain ⟨h1, _, _, _, h5, _⟩ := claim_C1_confirmation_idempotent sampleConfDB
    sampleChargeEvent sampleConfApp "u1" "APP-a1-1700" "APP-a1-1701" rfl
    (by decide) (by decide) (by decide) (by decide) (by decide) rfl rfl
    Channel.webhook
  exact ⟨h1, h5 _⟩

/-- C2 witness: webhook-then-verify equals verify-then-webhook at the
concrete event and store. -/
theorem claim_C2_witness :
    deliverOnce sampleChargeEvent "u1" "APP-a1-1701" Channel.verify
        (deliverOnce sampleChargeEvent "u1" "APP-a1-1701" Channel.webhook
          sampleConfDB) =
      deliverOnce sampleChargeEvent "u1" "APP-a1-1701" Channel.webhook
        (deliverOnce sampleChargeEvent "u1" "APP-a1-1701" Channel.verify
          sampleConfDB) :=
  claim_C2_channels_commute sampleConfDB sampleChargeEvent sampleConfApp "u1"
    "APP-a1-1700" "APP-a1-1701" rfl (by decide) (by decide) (by decide)
    (by decide) (by decide) rfl rfl (by decide)

/-! ## Create application: one application per (user, opportunity) (C10) -/

/-- The in-place update of an existing pending application performed by
POST /: new resume URL, new recommendation letter URL when one was uploaded,
cover letter replaced only by a non-empty value. -/
def updatedExisting (ex : App) (rUrl recUrl : String)
    (recFile : Option FileData) (coverLetter : Option String) : App :=
  { ex with
    resumeUrl := rUrl,
    recommendationLetterUrl := (match recFile with
      | some _ => some recUrl
      | none => ex.recommendationLetterUrl),
    coverLetter := (match coverLetter with
      | some c => if c = "" then ex.coverLetter else some c
      | none => ex.coverLetter) }

/-- C10: when the user already has an Application for the opportunity, the
apply route refuses with "already applied" and changes nothing unless that
application is still pending_payment; in the pending case it updates the
existing record in place (resume, recommendation letter, cover letter),
answers with a fresh payment link, and creates no second Application — the
by-id save keeps the collection size unchanged, preserving the
one-application-per-(user, opportunity) invariant. -/
theorem claim_C10_apply_existing (uid oppId : String)
    (coverLetter : Option String) (resumeFile recFile : Option FileData)
    (rf : FileData) (rUrl recUrl link newId : String) (now : Int) (db : DB)
    (opp : Opp) (ex : App)
    (hopp : db.opps.find? (fun o => decide (o.id = oppId)) = some opp)
    (hact : opp.isActive = true)
    (hex : db.apps.find? (fun a =>
      decide (a.userId = uid ∧ a.opportunityId = oppId)) = some ex)
    (hres : resumeFile = some rf)
    (hval : (validateDocFile (some rf)).valid = true)
    (hrecreq : opp.oppType = "attachment" → recFile.isSome)
    (hrecval : ∀ g, recFile = some g → (validateDocFile (some g)).valid = true) :
    (ex.status ≠ AppStatus.pending_payment →
      createApplicationRoute uid oppId coverLetter resumeFile recFile
          (Except.ok rUrl) (Except.ok recUrl) (Except.ok link) newId now db =
        (CreateResp.alreadyApplied, db)) ∧
    (ex.status = AppStatus.pending_payment →
      createApplicationRoute uid oppId coverLetter resumeFile recFile
          (Except.ok rUrl) (Except.ok recUrl) (Except.ok link) newId now db =
        (CreateResp.created ex.id link,
         saveApp (updatedExisting ex rUrl recUrl recFile coverLetter) db) ∧
      ((saveApp (updatedExisting ex rUrl recUrl recFile coverLetter)
          db).apps).length = db.apps.length) := by
  have hnotclosed : ¬ opp.isActive = false := by simp [hact]
  have hcond : ¬ (opp.oppType = "attachment" ∧ recFile = none) := by
    rintro ⟨h1, h2⟩
    have := hrecreq h1
    rw [h2] at this
    simp at this
  constructor
  · intro hne
    unfold createApplicationRoute
    rw [hopp]
    dsimp only
    rw [if_neg hnotclosed, hex]
    dsimp only
    rw [if_pos (by simpa using hne)]
  · intro hpend
    have hlen : ((saveApp (updatedExisting ex rUrl recUrl recFile coverLetter)
        db).apps).length = db.apps.length := by
      unfold saveApp
      exact List.length_map _ _
    refine ⟨?_, hlen⟩
    unfold createApplicationRoute
    rw [hopp]
    dsimp only
    rw [if_neg hnotclosed, hex]
    dsimp only
    rw [if_neg (by simp [hpend]), hres]
    dsimp only
    rw [if_neg (by simp [hval]), if_neg hcond]
    cases hrf : recFile with
    | none =>
      dsimp only
      rw [if_pos hpend]
      rfl
    | some g =>
      have hgval := hrecval g hrf
      dsimp only
      rw [if_pos hgval]
      dsimp only
      rw [if_pos hpend]
      rfl

/-- Concrete opportunity for the C10 witness. -/
def sampleOpp10 : Opp :=
  { id := "o10", title := "T", isActive := true, oppType := "internship",
    applicationFee := some 350 }

/-- Concrete existing pending application for the C10 witness. -/
def sampleExistingApp : App :=
  { id := "a10", userId := "u10", opportunityId := "o10", resumeUrl := "oldR",
    recommendationLetterUrl := some "oldRec", coverLetter := some "old",
    status := AppStatus.pending_payment, paymentTransactionId := none,
    amountPaid := none, refundedAt := none, refundTransferCode := none,
    refundAmount := none, createdAt := 0 }

/-- Concrete valid PDF resume file for the C10 witness. -/
def sampleResumeFile : FileData :=
  { originalname := "cv.pdf", mimetype := "application/pdf",
    buffer := [0x25, 0x50, 0x44, 0x46, 0, 0, 0, 0] }

/-- Concrete store for the C10 witness. -/
def sampleApplyDB : DB :=
  { apps := [sampleExistingApp], users := [], opps := [sampleOpp10],
    messages := [] }

/-- C10 witness: re-applying while the existing application is still
pending_payment updates it in place, returns the fresh payment link, and the
Application collection keeps its size. -/
theorem claim_C10_witness :
    createApplicationRoute "u10" "o10" (some "new") (some sampleResumeFile)
        none (Except.ok "newResume") (Except.ok "rec") (Except.ok "payLink")
        "n1" 42 sampleApplyDB =
      (CreateResp.created sampleExistingApp.id "payLink",
       saveApp (updatedExisting sampleExistingApp "newResume" "rec" none
         (some "new")) sampleApplyDB) ∧
    ((saveApp (updatedExisting sampleExistingApp "newResume" "rec" none
        (some "new")) sampleApplyDB).apps).length = sampleApplyDB.apps.length :=
  (claim_C10_apply_existing "u10" "o10" (some "new") (some sampleResumeFile)
    none sampleResumeFile "newResume" "rec" "payLink" "n1" 42 sampleApplyDB
    sampleOpp10 sampleExistingApp (by decide) rfl (by decide) rfl (by decide)
    (by decide) (fun g hg => nomatch hg)).2 rfl
